import Mathlib

/-!
Verification of the orchestration core of ansible-rulebook
(`ansible_rulebook/app.py`): a shallow embedding of `run`,
`spawn_sources`, `validate_actions` and `validate_controller_params`,
with external collaborators (file system, websocket workload fetch,
rulebook loading, vault decryption, URL validation, the rule-engine
driver, and the eventual per-task results) supplied as oracles in a
`World` structure.  Stateful / concurrent behaviour of `run` is
modelled as the ordered trace of effects a single invocation performs.
-/

namespace AnsibleRulebook

/-- `INVENTORY_ACTIONS` from app.py. -/
def INVENTORY_ACTIONS : List String := ["run_playbook", "run_module"]

/-- `CONTROLLER_ACTIONS` from app.py. -/
def CONTROLLER_ACTIONS : List String := ["run_job_template", "run_workflow_template"]

/-- An action declaration inside a rule: the action kind plus its
(abstract) argument payload, on which the external `decryptable`
check is applied when vaulted content was detected. -/
structure ActionDecl where
  action : String
  action_args : String := ""
deriving DecidableEq, Repr

/-- A rule: name plus its action declarations. -/
structure Rule where
  name : String
  actions : List ActionDecl
deriving DecidableEq, Repr

/-- A ruleset (the spec's RuleGroup): sources feeding it plus its rules.
Source declarations are abstract payloads. -/
structure RuleSet where
  name : String
  sources : List String
  rules : List Rule
deriving DecidableEq, Repr

/-- An asyncio.Queue instance: identity (allocation order) plus its
capacity.  `spawn_sources` allocates `asyncio.Queue(1)`. -/
structure EQueue where
  qid : Nat
  capacity : Nat
deriving DecidableEq, Repr

/-- One task created by `asyncio.create_task(start_source(...))`:
the arguments the task was created with; the queue identity records
which queue instance the task writes into. -/
structure SpawnedTask where
  source : String
  source_dirs : List String
  vars : List (String × String)
  queue : EQueue
  shutdown_delay : Nat
deriving DecidableEq, Repr

/-- `RuleSetQueue(ruleset, source_queue)` from rule_types. -/
structure RuleSetQueue where
  ruleset : RuleSet
  queue : EQueue
deriving DecidableEq, Repr

/-- `spawn_sources` (app.py lines 250-272): for each ruleset allocate a
fresh `asyncio.Queue(1)`, create one task per source bound to that
queue, and pair the ruleset with its queue.  Queue identity is made
explicit with an allocation counter `n`. -/
def spawn_sources (rulesets : List RuleSet) (vars : List (String × String))
    (source_dirs : List String) (shutdown_delay : Nat) (n : Nat) :
    List SpawnedTask × List RuleSetQueue :=
  match rulesets with
  | [] => ([], [])
  | rs :: rest =>
    let source_queue : EQueue := { qid := n, capacity := 1 }
    let groupTasks : List SpawnedTask := rs.sources.map (fun s =>
      { source := s, source_dirs := source_dirs, vars := vars,
        queue := source_queue, shutdown_delay := shutdown_delay })
    let recres := spawn_sources rest vars source_dirs shutdown_delay (n + 1)
    (groupTasks ++ recres.1, { ruleset := rs, queue := source_queue } :: recres.2)

/-- Claim C1: for every list of RuleGroups, `spawn_sources` pairs each
group, in order, with exactly one queue; every queue has capacity 1;
the queue identities are pairwise distinct fresh allocations; the task
list is exactly one task per source declaration of each group, each
bound to that group's own queue; and the number of tasks equals the
total number of source declarations. -/
theorem c1_spawn_sources_one_queue_per_group_one_task_per_source
    (vars : List (String × String)) (source_dirs : List String)
    (shutdown_delay : Nat) (rulesets : List RuleSet) (n : Nat) :
    (spawn_sources rulesets vars source_dirs shutdown_delay n).2.map
        RuleSetQueue.ruleset = rulesets
    ∧ (∀ rq ∈ (spawn_sources rulesets vars source_dirs shutdown_delay n).2,
        rq.queue.capacity = 1)
    ∧ (spawn_sources rulesets vars source_dirs shutdown_delay n).2.map
        (fun rq => rq.queue.qid) = List.range' n rulesets.length
    ∧ (spawn_sources rulesets vars source_dirs shutdown_delay n).1 =
        (spawn_sources rulesets vars source_dirs shutdown_delay n).2.flatMap
          (fun rq => rq.ruleset.sources.map (fun s =>
            { source := s, source_dirs := source_dirs, vars := vars,
              queue := rq.queue, shutdown_delay := shutdown_delay }))
    ∧ (spawn_sources rulesets vars source_dirs shutdown_delay n).1.length =
        (rulesets.map (fun rs => rs.sources.length)).sum := by
  induction rulesets generalizing n with
  | nil => simp [spawn_sources]
  | cons rs rest ih =>
    obtain ⟨ih1, ih2, ih3, ih4, ih5⟩ := ih (n + 1)
    refine ⟨?_, ?_, ?_, ?_, ?_⟩
    · simp [spawn_sources, ih1]
    · intro rq hrq
      simp [spawn_sources] at hrq
      rcases hrq with h | h
      · simp [h]
      · exact ih2 rq h
    · simp [spawn_sources, ih3, List.range']
    · simp only [spawn_sources, List.flatMap_cons]
      rw [ih4]
    · simp [spawn_sources, ih5]

/-- The outcome of one spawned asyncio task at `gather` time:
a normal return value, a `CancelledError`, or any other exception. -/
inductive TaskResult where
  | value
  | cancelled
  | failed (msg : String)
deriving DecidableEq, Repr

/-- `isinstance(result, Exception)`: since Python 3.8 `CancelledError`
derives from `BaseException`, not `Exception`. -/
def isExceptionInstance : TaskResult → Bool
  | .failed _ => true
  | _ => false

/-- `isinstance(result, CancelledError)`. -/
def isCancelledInstance : TaskResult → Bool
  | .cancelled => true
  | _ => false

/-- The classification at app.py lines 176-178:
`isinstance(result, Exception) and not isinstance(result, CancelledError)`. -/
def marksFailure (r : TaskResult) : Bool :=
  isExceptionInstance r && !(isCancelledInstance r)

/-- The startup exception classifications raised by `run` before the
driver starts (exception.py constructors used in app.py). -/
inductive StartupError where
  | webSocketExchange
  | inventoryNeeded (rule action : String)
  | inventoryNotFound (inventory : String)
  | controllerNeeded (rule action : String)
  | undecryptable
  | invalidUrl
  | connectivity
deriving DecidableEq, Repr

/-- Modelled from the spec: `StartupArgs` lives in
`ansible_rulebook/common.py`, which is not under src/; §3 describes it
as the RunContext, the "per-invocation configuration bundle ... built
once at startup".  Boolean flags start unset: app.py's
`validate_actions` turns `check_controller_connection` on when it sees
a controller action, which is only meaningful against an unset
default. -/
structure StartupArgs where
  vars : List (String × String) := []
  rulesets : List RuleSet := []
  inventory : String := ""
  project_data_file : String := ""
  controller_url : String := ""
  controller_token : String := ""
  controller_ssl_verify : String := ""
  controller_username : String := ""
  controller_password : String := ""
  env_vars : List (String × String) := []
  check_vault : Bool := false
  check_controller_connection : Bool := false
deriving DecidableEq, Repr

instance : Inhabited StartupArgs := ⟨{}⟩

/-- The fields of `parsed_args` that `run` reads.  Python truthiness of
the string-valued options is modelled as non-emptiness. -/
structure ParsedArgs where
  worker : Bool := false
  websocket_url : String := ""
  id : String := ""
  rulebook : String := ""
  hot_reload : Bool := false
  inventory : String := ""
  project_tarball : String := ""
  controller_url : String := ""
  controller_token : String := ""
  controller_ssl_verify : String := ""
  controller_username : String := ""
  controller_password : String := ""
  source_dir : String := ""
  shutdown_delay : Nat := 0
deriving DecidableEq, Repr

/-- Oracles for every external collaborator `run` interacts with, plus
the eventual outcome of each spawned task. -/
structure World where
  path_exists : String → Bool
  workload : Option StartupArgs
  loaded_vars : List (String × String)
  loaded_rulesets : List RuleSet
  loaded_check_vault : Bool
  decrypt_args : String → Bool
  decryptable_vars : List (String × String) → Bool
  decrypted_context : List (String × String) → List (String × String)
  substitute : List (String × String) → List (String × String) → List (String × String)
  validate_url : String → Bool
  probe_ok : Bool
  controller_version : String
  max_feedback_timeout : Nat
  feedback_timed_out : Bool
  driver_reload : Bool
  source_result : Nat → TaskResult
  feedback_result : TaskResult

/-- The condition at app.py line 90:
`parsed_args.worker and parsed_args.websocket_url and parsed_args.id`. -/
def workerMode (args : ParsedArgs) : Bool :=
  args.worker && !(args.websocket_url == "") && !(args.id == "")

/-- `file_monitor` (app.py lines 88, 102-109): armed only in the
non-worker branch, when `hot_reload is True` and the rulebook path
exists on disk. -/
def fileMonitor (args : ParsedArgs) (w : World) : Option String :=
  if workerMode args then none
  else if args.hot_reload && w.path_exists args.rulebook then some args.rulebook
  else none

/-- The (rule name, action) pairs of every ruleset, in the order the
triple-nested loop of `validate_actions` (app.py lines 280-282) visits
them. -/
def scanItems (rulesets : List RuleSet) : List (String × ActionDecl) :=
  rulesets.flatMap (fun rs => rs.rules.flatMap (fun r =>
    r.actions.map (fun a => (r.name, a))))

/-- The body of the `validate_actions` loop for one action (app.py
lines 283-310): set `check_controller_connection` on controller
actions, then the two inventory checks, the controller-credentials
check and the vault decryptability check, each raising on failure.
`pe` is `os.path.exists`, `dk` is `decryptable` on the action args. -/
def checkAction (pe : String → Bool) (dk : String → Bool) (sa : StartupArgs)
    (ruleName : String) (a : ActionDecl) : Except StartupError StartupArgs :=
  let sa1 := if a.action ∈ CONTROLLER_ACTIONS then
      { sa with check_controller_connection := true } else sa
  if a.action ∈ INVENTORY_ACTIONS ∧ sa1.inventory = "" then
    .error (.inventoryNeeded ruleName a.action)
  else if a.action ∈ INVENTORY_ACTIONS ∧ pe sa1.inventory = false then
    .error (.inventoryNotFound sa1.inventory)
  else if a.action ∈ CONTROLLER_ACTIONS ∧ sa1.controller_url = ""
      ∧ sa1.controller_token = "" then
    .error (.controllerNeeded ruleName a.action)
  else if sa1.check_vault ∧ dk a.action_args = false then
    .error .undecryptable
  else
    .ok sa1

/-- The `validate_actions` scan over the flattened action list,
threading the mutated `startup_args`. -/
def scanActions (pe : String → Bool) (dk : String → Bool) :
    StartupArgs → List (String × ActionDecl) → Except StartupError StartupArgs
  | sa, [] => .ok sa
  | sa, (rn, a) :: rest =>
    match checkAction pe dk sa rn a with
    | .error e => .error e
    | .ok sa1 => scanActions pe dk sa1 rest

/-- `validate_actions` (app.py lines 279-310). -/
def validate_actions (pe : String → Bool) (dk : String → Bool)
    (sa : StartupArgs) : Except StartupError StartupArgs :=
  scanActions pe dk sa (scanItems sa.rulesets)

/-- A handle in the task list `run` tracks: either one of the source
tasks returned by `spawn_sources`, or the feedback publisher task
appended at app.py line 151. -/
inductive TaskKind where
  | source (t : SpawnedTask)
  | feedback
deriving DecidableEq, Repr

/-- One observable effect of `run`, in the order the coroutine performs
them. -/
inductive Event where
  | requestWorkloadEv
  | loadVarsEv
  | loadRulebookEv
  | armMonitorEv (path : String)
  | validateActionsEv
  | validateVariablesEv
  | exportEnvEv (k v : String)
  | validateControllerEv
  | logVersionEv (version : String)
  | spawnTask (t : SpawnedTask)
  | spawnFeedback
  | runDriver (monitor : Option String)
  | putEvent (typ : String)
  | waitFeedback (timeout : Nat) (timedOut : Bool)
  | cancelTask (t : TaskKind)
  | awaitTask (t : TaskKind) (r : TaskResult)
  | closeSession
  | raiseError (msg : String)
deriving DecidableEq, Repr

/-- `validate_controller_params` (app.py lines 313-331): nothing is
checked without a configured controller URL; with one, syntactic URL
validation raises `InvalidUrlException`, then `get_config()` probes
reachability and its reported version is logged. -/
def validateControllerParams (sa : StartupArgs) (w : World) :
    Except StartupError (List Event) :=
  if sa.controller_url = "" then .ok []
  else if w.validate_url sa.controller_url = false then .error .invalidUrl
  else if w.probe_ok = false then .error .connectivity
  else .ok [Event.logVersionEv w.controller_version]

/-- app.py lines 90-117: worker mode fetches the startup bundle over
the websocket (raising `WebSocketExchangeException` on a falsy reply),
otherwise the bundle is built from local files and `parsed_args`.
Returns the events performed and the resulting `startup_args`. -/
def acquireStartupArgs (args : ParsedArgs) (w : World) :
    List Event × Except StartupError StartupArgs :=
  if workerMode args then
    match w.workload with
    | none => ([Event.requestWorkloadEv], .error .webSocketExchange)
    | some sa => ([Event.requestWorkloadEv], .ok sa)
  else
    ([Event.loadVarsEv, Event.loadRulebookEv]
       ++ (if args.hot_reload && w.path_exists args.rulebook then
             [Event.armMonitorEv args.rulebook] else []),
     .ok { vars := w.loaded_vars,
           rulesets := w.loaded_rulesets,
           check_vault := w.loaded_check_vault,
           inventory := args.inventory,
           project_data_file := args.project_tarball,
           controller_url := args.controller_url,
           controller_token := args.controller_token,
           controller_ssl_verify := args.controller_ssl_verify,
           controller_username := args.controller_username,
           controller_password := args.controller_password })

/-- app.py lines 90-129: everything `run` does before any task is
created — acquire the startup bundle, `validate_actions`,
`validate_variables`, decrypt the variable context, substitute and
export the environment variables, and (when enabled by
`check_controller_connection`) `validate_controller_params`. -/
def startupPhase (args : ParsedArgs) (w : World) :
    List Event × Except StartupError StartupArgs :=
  let acq := acquireStartupArgs args w
  match acq.2 with
  | .error e => (acq.1, .error e)
  | .ok sa =>
    let evs1 := acq.1 ++ [Event.validateActionsEv]
    match validate_actions w.path_exists w.decrypt_args sa with
    | .error e => (evs1, .error e)
    | .ok sa1 =>
      let evs2 := evs1 ++ [Event.validateVariablesEv]
      if w.decryptable_vars sa1.vars = false then (evs2, .error .undecryptable)
      else
        let vars2 := w.decrypted_context sa1.vars
        let env2 := w.substitute sa1.env_vars vars2
        let sa2 := { sa1 with vars := vars2, env_vars := env2 }
        let evs3 := evs2 ++ env2.map (fun p => Event.exportEnvEv p.1 p.2)
        if sa2.check_controller_connection then
          match validateControllerParams sa2 w with
          | .error e => (evs3 ++ [Event.validateControllerEv], .error e)
          | .ok cevs => (evs3 ++ [Event.validateControllerEv] ++ cevs, .ok sa2)
        else (evs3, .ok sa2)

/-- Whether the startup phase completed without raising. -/
def startupOk (args : ParsedArgs) (w : World) : Bool :=
  match (startupPhase args w).2 with
  | .ok _ => true
  | .error _ => false

/-- The `startup_args` value in scope after the startup phase
(meaningful only when `startupOk`). -/
def postStartup (args : ParsedArgs) (w : World) : StartupArgs :=
  match (startupPhase args w).2 with
  | .ok sa => sa
  | .error _ => {}

/-- The source task list of app.py line 137. -/
def sourceTasks (args : ParsedArgs) (sa : StartupArgs) : List SpawnedTask :=
  (spawn_sources sa.rulesets sa.vars [args.source_dir] args.shutdown_delay 0).1

/-- app.py line 147: a feedback publisher task exists iff a websocket
URL is configured. -/
def hasFeedback (args : ParsedArgs) : Bool :=
  !(args.websocket_url == "")

/-- The full task list `run` tracks: every source task, plus the
feedback task appended at line 151 when it exists. -/
def trackedTasks (args : ParsedArgs) (sa : StartupArgs) : List TaskKind :=
  (sourceTasks args sa).map TaskKind.source
    ++ (if hasFeedback args then [TaskKind.feedback] else [])

/-- The results of `asyncio.gather(*tasks, return_exceptions=True)`
(app.py line 174): one outcome per tracked task, in task-list order,
exceptions converted to values instead of aborting the join. -/
def gatherResults (args : ParsedArgs) (sa : StartupArgs) (w : World) :
    List TaskResult :=
  (List.range (sourceTasks args sa).length).map w.source_result
    ++ (if hasFeedback args then [w.feedback_result] else [])

/-- `error_found` as computed by the loop at app.py lines 173-182. -/
def errorFoundIn (args : ParsedArgs) (sa : StartupArgs) (w : World) : Bool :=
  (gatherResults args sa w).any marksFailure

/-- The aggregate failure message of app.py line 187. -/
def sourcesFailedMsg : String := "One of the source plugins failed"

/-- The outcome of one `run` invocation. -/
inductive RunOutcome where
  | startupFailure (e : StartupError)
  | aggregateFailure (msg : String)
  | reloadRequested
  | completed
deriving DecidableEq, Repr

/-- app.py lines 163-187: the shutdown sequence after the driver
returns — put the Exit sentinel, bounded wait on the feedback task if
any, cancel every tracked task, gather every result, close the
controller session, and raise the aggregate failure iff a
non-cancellation exception was collected. -/
def shutdownTrace (args : ParsedArgs) (sa : StartupArgs) (w : World) :
    List Event :=
  [Event.putEvent "Exit"]
    ++ (if hasFeedback args then
          [Event.waitFeedback w.max_feedback_timeout w.feedback_timed_out]
        else [])
    ++ (trackedTasks args sa).map Event.cancelTask
    ++ ((trackedTasks args sa).zip (gatherResults args sa w)).map
        (fun p => Event.awaitTask p.1 p.2)
    ++ [Event.closeSession]
    ++ (if errorFoundIn args sa w then [Event.raiseError sourcesFailedMsg]
        else [])

/-- app.py lines 136-161: spawn the source tasks, spawn the feedback
task when a websocket URL is configured, and invoke the driver
(`run_rulesets`). -/
def preDriverEvents (args : ParsedArgs) (w : World) (sa : StartupArgs) :
    List Event :=
  (sourceTasks args sa).map Event.spawnTask
    ++ (if hasFeedback args then [Event.spawnFeedback] else [])
    ++ [Event.runDriver (fileMonitor args w)]

/-- app.py lines 136-190 given the startup phase's `startup_args`:
spawn the sources and the optional feedback task, run the driver, and
perform the shutdown sequence; the outcome is the aggregate failure if
one was found, else a reload request if the driver asked for one, else
normal completion. -/
def runMain (args : ParsedArgs) (w : World) (sa : StartupArgs) :
    List Event × RunOutcome :=
  (preDriverEvents args w sa ++ shutdownTrace args sa w,
   if errorFoundIn args sa w then .aggregateFailure sourcesFailedMsg
   else if w.driver_reload then .reloadRequested
   else .completed)

/-- One invocation of `run` (app.py lines 87-190), as its effect trace
plus outcome; a requested reload is reported as an outcome rather than
recursing. -/
def runOnce (args : ParsedArgs) (w : World) : List Event × RunOutcome :=
  match (startupPhase args w).2 with
  | .error e => ((startupPhase args w).1, .startupFailure e)
  | .ok sa => ((startupPhase args w).1 ++ (runMain args w sa).1,
               (runMain args w sa).2)

/-- Final outcome of the (possibly reloading) `run` recursion. -/
inductive FinalOutcome where
  | startupFailureF (e : StartupError)
  | aggregateFailureF (msg : String)
  | completedF
  | fuelOut
deriving DecidableEq, Repr

/-- The recursive `run` (app.py line 190: `await run(parsed_args)` on
reload), with explicit fuel for the unbounded recursion and a
generation-indexed family of worlds: each reload is a fresh full run
against the next world. -/
def runFuel : Nat → ParsedArgs → (Nat → World) → Nat → List Event × FinalOutcome
  | 0, _, _, _ => ([], .fuelOut)
  | fuel + 1, args, ws, gen =>
    match runOnce args (ws gen) with
    | (t, .startupFailure e) => (t, .startupFailureF e)
    | (t, .aggregateFailure m) => (t, .aggregateFailureF m)
    | (t, .completed) => (t, .completedF)
    | (t, .reloadRequested) =>
      let next := runFuel fuel args ws (gen + 1)
      (t ++ next.1, next.2)

/-- Events the startup phase can perform. -/
def isStartupEv : Event → Bool
  | .requestWorkloadEv | .loadVarsEv | .loadRulebookEv | .armMonitorEv _
  | .validateActionsEv | .validateVariablesEv | .exportEnvEv _ _
  | .validateControllerEv | .logVersionEv _ => true
  | _ => false

/-- Startup validation / environment-export events (claim C4's
"validation and export" class). -/
def isValidationEv : Event → Bool
  | .validateActionsEv | .validateVariablesEv | .exportEnvEv _ _
  | .validateControllerEv | .logVersionEv _ => true
  | _ => false

/-- Task-creating events. -/
def isSpawnEv : Event → Bool
  | .spawnTask _ | .spawnFeedback => true
  | _ => false

/-- Shutdown-sequence events. -/
def isShutdownEv : Event → Bool
  | .putEvent _ | .waitFeedback _ _ | .cancelTask _ | .awaitTask _ _
  | .closeSession | .raiseError _ => true
  | _ => false

/-- Result-collection events: awaiting a task or raising the aggregate. -/
def isCollectEv : Event → Bool
  | .awaitTask _ _ | .raiseError _ => true
  | _ => false

theorem startupEv_not_spawn (e : Event) (h : isStartupEv e = true) :
    isSpawnEv e = false := by
  cases e <;> simp_all [isStartupEv, isSpawnEv]

theorem startupEv_not_shutdown (e : Event) (h : isStartupEv e = true) :
    isShutdownEv e = false := by
  cases e <;> simp_all [isStartupEv, isShutdownEv]

theorem shutdownEv_not_validation (e : Event) (h : isShutdownEv e = true) :
    isValidationEv e = false := by
  cases e <;> simp_all [isShutdownEv, isValidationEv]

/-- Every event of the startup-bundle acquisition is a startup event. -/
theorem acquire_events (args : ParsedArgs) (w : World) :
    ∀ e ∈ (acquireStartupArgs args w).1, isStartupEv e = true := by
  unfold acquireStartupArgs
  split
  · split <;> simp [isStartupEv]
  · intro e he
    simp only [List.mem_append, List.mem_cons, List.mem_singleton] at he
    rcases he with (rfl | rfl | h) | h
    · rfl
    · rfl
    · cases h
    · split at h
      · simp only [List.mem_singleton] at h
        subst h; rfl
      · cases h

/-- When `validateControllerParams` succeeds, the events it contributes
are startup events. -/
theorem validateControllerParams_events (sa : StartupArgs) (w : World)
    (evs : List Event) (h : validateControllerParams sa w = .ok evs) :
    ∀ e ∈ evs, isStartupEv e = true := by
  unfold validateControllerParams at h
  split at h
  · cases h; intro e he; cases he
  · split at h
    · cases h
    · split at h
      · cases h
      · cases h
        intro e he
        simp only [List.mem_singleton] at he
        subst he; rfl

/-- Every event of the startup phase is a startup event. -/
theorem startupPhase_events (args : ParsedArgs) (w : World) :
    ∀ e ∈ (startupPhase args w).1, isStartupEv e = true := by
  simp only [startupPhase]
  split
  · exact acquire_events args w
  · split
    · intro e he
      simp only [List.mem_append, List.mem_singleton] at he
      rcases he with h | rfl
      · exact acquire_events args w e h
      · rfl
    · split
      · intro e he
        simp only [List.mem_append, List.mem_singleton] at he
        rcases he with (h | rfl) | rfl
        · exact acquire_events args w e h
        · rfl
        · rfl
      · split
        · split
          · intro e he
            simp only [List.mem_append, List.mem_singleton, List.mem_map] at he
            rcases he with (((h | rfl) | rfl) | ⟨p, _, rfl⟩) | rfl
            · exact acquire_events args w e h
            · rfl
            · rfl
            · rfl
            · rfl
          · rename_i sa1 hnd hcc cevs hvc
            intro e he
            simp only [List.mem_append, List.mem_singleton, List.mem_map] at he
            rcases he with ((((h | rfl) | rfl) | ⟨p, _, rfl⟩) | rfl) | h
            · exact acquire_events args w e h
            · rfl
            · rfl
            · rfl
            · rfl
            · exact validateControllerParams_events _ w cevs hvc e h
        · intro e he
          simp only [List.mem_append, List.mem_singleton, List.mem_map] at he
          rcases he with ((h | rfl) | rfl) | ⟨p, _, rfl⟩
          · exact acquire_events args w e h
          · rfl
          · rfl
          · rfl

theorem startupEv_not_collect (e : Event) (h : isStartupEv e = true) :
    isCollectEv e = false := by
  cases e <;> simp_all [isStartupEv, isCollectEv]

/-- Whether a `RunOutcome` is a startup failure. -/
def isStartupFailureB : RunOutcome → Bool
  | .startupFailure _ => true
  | _ => false

/-- When startup succeeded, `runOnce` is the startup trace followed by
the main phase on the resulting `startup_args`. -/
theorem runOnce_ok (args : ParsedArgs) (w : World)
    (h : startupOk args w = true) :
    runOnce args w =
      ((startupPhase args w).1 ++ (runMain args w (postStartup args w)).1,
       (runMain args w (postStartup args w)).2) := by
  unfold runOnce postStartup
  rcases h2 : (startupPhase args w).2 with e0 | sa
  · unfold startupOk at h
    rw [h2] at h
    cases h
  · simp [h2]

/-- Every event of the shutdown sequence is a shutdown event. -/
theorem shutdownTrace_events (args : ParsedArgs) (sa : StartupArgs)
    (w : World) : ∀ e ∈ shutdownTrace args sa w, isShutdownEv e = true := by
  intro e he
  simp only [shutdownTrace, List.mem_append, List.mem_singleton,
    List.mem_map] at he
  rcases he with ((((rfl | h) | ⟨t, _, rfl⟩) | ⟨p, _, rfl⟩) | rfl) | h
  · rfl
  · split at h
    · simp only [List.mem_singleton] at h; subst h; rfl
    · cases h
  · rfl
  · rfl
  · rfl
  · split at h
    · simp only [List.mem_singleton] at h; subst h; rfl
    · cases h

/-- The pre-driver events are spawns and the driver call only: none of
them is a shutdown or validation event. -/
theorem preDriverEvents_shape (args : ParsedArgs) (w : World)
    (sa : StartupArgs) :
    ∀ e ∈ preDriverEvents args w sa,
      isShutdownEv e = false ∧ isValidationEv e = false := by
  intro e he
  simp only [preDriverEvents, List.mem_append, List.mem_singleton,
    List.mem_map] at he
  rcases he with (⟨t, _, rfl⟩ | h) | rfl
  · exact ⟨rfl, rfl⟩
  · split at h
    · simp only [List.mem_singleton] at h; subst h; exact ⟨rfl, rfl⟩
    · cases h
  · exact ⟨rfl, rfl⟩

/-- The main phase performs no validation or export event. -/
theorem runMain_no_validation (args : ParsedArgs) (w : World)
    (sa : StartupArgs) :
    ∀ e ∈ (runMain args w sa).1, isValidationEv e = false := by
  intro e he
  rcases List.mem_append.mp he with h | h
  · exact (preDriverEvents_shape args w sa e h).2
  · exact shutdownEv_not_validation e (shutdownTrace_events args sa w e h)

/-- The main phase never reports a startup failure. -/
theorem runMain_not_startupFailure (args : ParsedArgs) (w : World)
    (sa : StartupArgs) : isStartupFailureB (runMain args w sa).2 = false := by
  simp only [runMain]
  split_ifs <;> rfl

/-- Tracked tasks and gathered results line up one to one. -/
theorem trackedTasks_length (args : ParsedArgs) (sa : StartupArgs)
    (w : World) :
    (trackedTasks args sa).length = (gatherResults args sa w).length := by
  by_cases hfb : hasFeedback args = true <;>
    simp [trackedTasks, gatherResults, hfb]

/-- Claim C4: every run trace splits into the startup-phase events
(which create no task) followed by a remainder containing no
validation or environment-export event — so all startup validation
and the environment export happen before any task is spawned — and
when the run ends in a startup failure the remainder is empty, so zero
tasks have been created. -/
theorem c4_validation_and_env_export_precede_all_spawns
    (args : ParsedArgs) (w : World) :
    ∃ S T, (runOnce args w).1 = S ++ T
      ∧ S = (startupPhase args w).1
      ∧ (∀ e ∈ S, isSpawnEv e = false)
      ∧ (∀ e ∈ T, isValidationEv e = false)
      ∧ (isStartupFailureB (runOnce args w).2 = true → T = []) := by
  rcases h2 : (startupPhase args w).2 with e0 | sa
  · refine ⟨(startupPhase args w).1, [], by simp [runOnce, h2], rfl, ?_,
      by simp, fun _ => rfl⟩
    intro e he
    exact startupEv_not_spawn e (startupPhase_events args w e he)
  · refine ⟨(startupPhase args w).1, (runMain args w sa).1,
      by simp [runOnce, h2], rfl, ?_, runMain_no_validation args w sa, ?_⟩
    · intro e he
      exact startupEv_not_spawn e (startupPhase_events args w e he)
    · intro habs
      exfalso
      have : (runOnce args w).2 = (runMain args w sa).2 := by
        simp [runOnce, h2]
      rw [this, runMain_not_startupFailure] at habs
      cases habs

/-- Claim C10: the file monitor is armed exactly when the run is not in
worker mode, the hot-reload flag is set, and the rulebook path exists
at startup; and the driver is always invoked with exactly that monitor
value, so in every other case it can observe no rulebook file. -/
theorem c10_monitor_iff_nonworker_hotreload_and_existing_rulebook
    (args : ParsedArgs) (w : World) :
    ((fileMonitor args w).isSome
        = (!workerMode args && args.hot_reload && w.path_exists args.rulebook))
    ∧ (∀ m, Event.runDriver m ∈ (runOnce args w).1 → m = fileMonitor args w)
    ∧ (startupOk args w = true →
        Event.runDriver (fileMonitor args w) ∈ (runOnce args w).1) := by
  refine ⟨?_, ?_, ?_⟩
  · unfold fileMonitor
    split
    · rename_i hwm
      rw [hwm]
      rfl
    · rename_i hwm
      have hwm2 : workerMode args = false := by
        revert hwm; cases workerMode args <;> simp
      rw [hwm2]
      split
      · rename_i hcond
        simp [hcond]
      · rename_i hcond
        simp only [Option.isSome_none, Bool.not_false, Bool.true_and]
        revert hcond
        cases args.hot_reload <;> cases w.path_exists args.rulebook <;> simp
  · intro m hm
    rcases h2 : (startupPhase args w).2 with e0 | sa
    · have htr : (runOnce args w).1 = (startupPhase args w).1 := by
        simp [runOnce, h2]
      rw [htr] at hm
      have := startupPhase_events args w _ hm
      simp [isStartupEv] at this
    · have htr : (runOnce args w).1
          = (startupPhase args w).1 ++ (runMain args w sa).1 := by
        simp [runOnce, h2]
      rw [htr] at hm
      rcases List.mem_append.mp hm with h | h
      · have := startupPhase_events args w _ h
        simp [isStartupEv] at this
      · rcases List.mem_append.mp h with h | h
        · simp only [preDriverEvents, List.mem_append, List.mem_singleton,
            List.mem_map] at h
          rcases h with (⟨t, _, ht⟩ | h) | heq
          · cases ht
          · split at h
            · simp only [List.mem_singleton] at h; cases h
            · cases h
          · cases heq
            rfl
        · have := shutdownTrace_events args sa w _ h
          simp [isShutdownEv] at this
  · intro h
    rw [runOnce_ok args w h]
    simp [runMain, preDriverEvents]

theorem not_shutdown_not_collect (e : Event) (h : isShutdownEv e = false) :
    isCollectEv e = false := by
  cases e <;> simp_all [isShutdownEv, isCollectEv]

/-- The startup phase never reads whether the feedback wait timed out. -/
theorem startupPhase_flag (args : ParsedArgs) (w : World) (b : Bool) :
    startupPhase args { w with feedback_timed_out := b } = startupPhase args w := by
  simp only [startupPhase, acquireStartupArgs, validateControllerParams]

/-- `asyncio.wait` with a timeout raises nothing: whether the bounded
feedback wait timed out has no effect on the run outcome. -/
theorem runOnce_flag (args : ParsedArgs) (w : World) (b : Bool) :
    (runOnce args { w with feedback_timed_out := b }).2 = (runOnce args w).2 := by
  unfold runOnce
  rw [startupPhase_flag]
  rcases h : (startupPhase args w).2 with e0 | sa
  · simp [h]
  · simp only [h]
    simp [runMain, errorFoundIn, gatherResults, trackedTasks, sourceTasks,
      hasFeedback]

/-- The task list `run` gathers on, for a given run. -/
def runTracked (args : ParsedArgs) (w : World) : List TaskKind :=
  trackedTasks args (postStartup args w)

/-- The gathered results of a given run, in task order. -/
def runGathered (args : ParsedArgs) (w : World) : List TaskResult :=
  gatherResults args (postStartup args w) w

/-- `error_found` of a given run. -/
def runErrorFound (args : ParsedArgs) (w : World) : Bool :=
  errorFoundIn args (postStartup args w) w

/-- Claim C2: in a run whose startup succeeded, the trace ends with one
await per tracked task (exactly one each, covering every tracked task,
no await anywhere earlier, so no single failure aborts collection),
then the session close, then the aggregate raise — present iff some
collected result marks a failure; a cancellation result never marks a
failure while any other exception result always does; and the run is
the aggregate failure exactly when a failure was marked. -/
theorem c2_all_results_collected_before_single_aggregate_raise
    (args : ParsedArgs) (w : World) (h : startupOk args w = true) :
    ∃ fore,
      (runOnce args w).1 = fore
        ++ ((runTracked args w).zip (runGathered args w)).map
            (fun p => Event.awaitTask p.1 p.2)
        ++ [Event.closeSession]
        ++ (if runErrorFound args w = true then
              [Event.raiseError sourcesFailedMsg] else [])
      ∧ (∀ e ∈ fore, isCollectEv e = false)
      ∧ ((runTracked args w).zip (runGathered args w)).map Prod.fst
          = runTracked args w
      ∧ ((runOnce args w).2 = RunOutcome.aggregateFailure sourcesFailedMsg
          ↔ runErrorFound args w = true)
      ∧ runErrorFound args w = (runGathered args w).any marksFailure
      ∧ (marksFailure TaskResult.cancelled = false
          ∧ ∀ m, marksFailure (TaskResult.failed m) = true) := by
  refine ⟨(startupPhase args w).1 ++ preDriverEvents args w (postStartup args w)
      ++ [Event.putEvent "Exit"]
      ++ (if hasFeedback args then
            [Event.waitFeedback w.max_feedback_timeout w.feedback_timed_out]
          else [])
      ++ (runTracked args w).map Event.cancelTask, ?_, ?_, ?_, ?_, rfl,
      rfl, fun m => rfl⟩
  · rw [runOnce_ok args w h]
    simp only [runMain, shutdownTrace, runTracked, runGathered, runErrorFound]
    simp [List.append_assoc]
  · intro e he
    simp only [List.mem_append] at he
    rcases he with ((((hsp | hpre) | hput) | hwait) | hcan)
    · exact startupEv_not_collect e (startupPhase_events args w e hsp)
    · exact not_shutdown_not_collect e
        (preDriverEvents_shape args w (postStartup args w) e hpre).1
    · simp only [List.mem_singleton] at hput; subst hput; rfl
    · split at hwait
      · simp only [List.mem_singleton] at hwait; subst hwait; rfl
      · cases hwait
    · simp only [List.mem_map] at hcan
      obtain ⟨t, _, rfl⟩ := hcan
      rfl
  · exact List.map_fst_zip _ _
      (le_of_eq (trackedTasks_length args (postStartup args w) w))
  · rw [runOnce_ok args w h]
    simp only [runMain, runErrorFound]
    by_cases hef : errorFoundIn args (postStartup args w) w = true
    · simp [hef]
    · simp only [Bool.not_eq_true] at hef
      simp only [hef]
      constructor
      · intro hout
        by_cases hrl : w.driver_reload = true <;> simp [hrl] at hout
      · intro habs; cases habs

/-- Claim C3: in a run whose startup succeeded, the post-driver events
are, strictly in this order and with nothing of their kind earlier:
the Exit sentinel put, then (iff a feedback task exists) a single
bounded wait on it, then a cancellation of every tracked task (sources
and the feedback handle), then the awaits; and whether the bounded
wait timed out has no effect on the run outcome. -/
theorem c3_shutdown_put_exit_then_feedback_wait_then_cancel_all
    (args : ParsedArgs) (w : World) (h : startupOk args w = true) :
    ∃ fore,
      (runOnce args w).1 = fore ++ [Event.putEvent "Exit"]
        ++ (if hasFeedback args then
              [Event.waitFeedback w.max_feedback_timeout w.feedback_timed_out]
            else [])
        ++ (runTracked args w).map Event.cancelTask
        ++ ((runTracked args w).zip (runGathered args w)).map
            (fun p => Event.awaitTask p.1 p.2)
        ++ [Event.closeSession]
        ++ (if runErrorFound args w = true then
              [Event.raiseError sourcesFailedMsg] else [])
      ∧ (∀ e ∈ fore, isShutdownEv e = false)
      ∧ (runTracked args w).map Event.cancelTask
          = (trackedTasks args (postStartup args w)).map Event.cancelTask
      ∧ (∀ b, (runOnce args { w with feedback_timed_out := b }).2
            = (runOnce args w).2) := by
  refine ⟨(startupPhase args w).1
      ++ preDriverEvents args w (postStartup args w), ?_, ?_, rfl,
      fun b => runOnce_flag args w b⟩
  · rw [runOnce_ok args w h]
    simp only [runMain, shutdownTrace, runTracked, runGathered, runErrorFound]
    simp [List.append_assoc]
  · intro e he
    rcases List.mem_append.mp he with hsp | hpre
    · exact startupEv_not_shutdown e (startupPhase_events args w e hsp)
    · exact (preDriverEvents_shape args w (postStartup args w) e hpre).1

/-- The outcome of a startup-successful run, in terms of the collected
results and the driver's reload request. -/
theorem runOnce_outcome (args : ParsedArgs) (w : World)
    (h : startupOk args w = true) :
    (runOnce args w).2 =
      if runErrorFound args w = true then
        RunOutcome.aggregateFailure sourcesFailedMsg
      else if w.driver_reload then RunOutcome.reloadRequested
      else RunOutcome.completed := by
  rw [runOnce_ok args w h]
  rfl

/-- Claim C5: after the session release, outcome precedence of the
recursive `run`: a collected failure raises the single aggregate
failure — even when a reload was also requested; otherwise a reload
request re-invokes the entire pipeline as a fresh full run, appending
the next generation's complete trace; otherwise the run completes
normally.  The session close always precedes the outcome decision. -/
theorem c5_failure_beats_reload_else_recursive_fresh_run
    (args : ParsedArgs) (ws : Nat → World) (gen fuel : Nat)
    (h : startupOk args (ws gen) = true) :
    (runErrorFound args (ws gen) = true →
      runFuel (fuel + 1) args ws gen
        = ((runOnce args (ws gen)).1,
           FinalOutcome.aggregateFailureF sourcesFailedMsg))
    ∧ (runErrorFound args (ws gen) = false → (ws gen).driver_reload = true →
      runFuel (fuel + 1) args ws gen
        = ((runOnce args (ws gen)).1 ++ (runFuel fuel args ws (gen + 1)).1,
           (runFuel fuel args ws (gen + 1)).2))
    ∧ (runErrorFound args (ws gen) = false → (ws gen).driver_reload = false →
      runFuel (fuel + 1) args ws gen
        = ((runOnce args (ws gen)).1, FinalOutcome.completedF))
    ∧ ∃ fore, (runOnce args (ws gen)).1
        = fore ++ [Event.closeSession]
          ++ (if runErrorFound args (ws gen) = true then
                [Event.raiseError sourcesFailedMsg] else []) := by
  have ho := runOnce_outcome args (ws gen) h
  refine ⟨?_, ?_, ?_, ?_⟩
  · intro hef
    rcases hro : runOnce args (ws gen) with ⟨t, o⟩
    have ho2 : o = RunOutcome.aggregateFailure sourcesFailedMsg := by
      rw [hro] at ho
      simpa [hef] using ho
    subst ho2
    simp [runFuel, hro]
  · intro hef hrl
    rcases hro : runOnce args (ws gen) with ⟨t, o⟩
    have ho2 : o = RunOutcome.reloadRequested := by
      rw [hro] at ho
      simpa [hef, hrl] using ho
    subst ho2
    simp [runFuel, hro]
  · intro hef hrl
    rcases hro : runOnce args (ws gen) with ⟨t, o⟩
    have ho2 : o = RunOutcome.completed := by
      rw [hro] at ho
      simpa [hef, hrl] using ho
    subst ho2
    simp [runFuel, hro]
  · refine ⟨(startupPhase args (ws gen)).1
        ++ preDriverEvents args (ws gen) (postStartup args (ws gen))
        ++ [Event.putEvent "Exit"]
        ++ (if hasFeedback args then
              [Event.waitFeedback (ws gen).max_feedback_timeout
                (ws gen).feedback_timed_out] else [])
        ++ (runTracked args (ws gen)).map Event.cancelTask
        ++ ((runTracked args (ws gen)).zip (runGathered args (ws gen))).map
            (fun p => Event.awaitTask p.1 p.2), ?_⟩
    rw [runOnce_ok args (ws gen) h]
    simp only [runMain, shutdownTrace, runTracked, runGathered, runErrorFound]
    simp [List.append_assoc]

/-- Claim C9: the feedback publisher task is tracked in the same task
list as the source tasks, so when it ends in a non-cancellation
exception — even while every source task was merely cancelled — the
run is marked failed and raises the aggregate failure whose message
blames the source plugins. -/
theorem c9_feedback_failure_reported_as_source_plugin_failure
    (args : ParsedArgs) (w : World) (h : startupOk args w = true)
    (hfb : hasFeedback args = true)
    (hf : marksFailure w.feedback_result = true)
    (_hsrc : ∀ i, w.source_result i = TaskResult.cancelled) :
    (runOnce args w).2
        = RunOutcome.aggregateFailure "One of the source plugins failed"
    ∧ TaskKind.feedback ∈ runTracked args w := by
  have herr : errorFoundIn args (postStartup args w) w = true := by
    simp [errorFoundIn, gatherResults, hfb, hf]
  constructor
  · rw [runOnce_ok args w h]
    simp only [runMain, herr]
    rfl
  · simp [runTracked, trackedTasks, hfb]

/-- Whether action validation raised `InventoryNeededException`. -/
def invNeededB : Except StartupError StartupArgs → Bool
  | .error (.inventoryNeeded _ _) => true
  | _ => false

/-- Whether action validation raised `InventoryNotFound`. -/
def invNotFoundB : Except StartupError StartupArgs → Bool
  | .error (.inventoryNotFound _) => true
  | _ => false

/-- Whether action validation raised `ControllerNeededException`. -/
def ctrlNeededB : Except StartupError StartupArgs → Bool
  | .error (.controllerNeeded _ _) => true
  | _ => false

/-- Case analysis of one `validate_actions` iteration when the action
passes the controller-credentials and vault checks: it raises
`InventoryNeededException` or `InventoryNotFound` exactly under their
conditions, else succeeds, preserving the configuration fields. -/
theorem checkAction_inventory_spec (pe dk : String → Bool)
    (sa : StartupArgs) (rn : String) (a : ActionDecl)
    (hctl : a.action ∈ CONTROLLER_ACTIONS →
      ¬(sa.controller_url = "" ∧ sa.controller_token = ""))
    (hvault : sa.check_vault = true → dk a.action_args = true) :
    (a.action ∈ INVENTORY_ACTIONS ∧ sa.inventory = "" ∧
       checkAction pe dk sa rn a
         = .error (.inventoryNeeded rn a.action))
    ∨ (a.action ∈ INVENTORY_ACTIONS ∧ ¬sa.inventory = ""
       ∧ pe sa.inventory = false ∧
       checkAction pe dk sa rn a = .error (.inventoryNotFound sa.inventory))
    ∨ (¬(a.action ∈ INVENTORY_ACTIONS ∧ sa.inventory = "")
       ∧ ¬(a.action ∈ INVENTORY_ACTIONS ∧ pe sa.inventory = false)
       ∧ ∃ sa1, checkAction pe dk sa rn a = .ok sa1
           ∧ sa1.inventory = sa.inventory
           ∧ sa1.controller_url = sa.controller_url
           ∧ sa1.controller_token = sa.controller_token
           ∧ sa1.check_vault = sa.check_vault) := by
  unfold checkAction
  by_cases hc : a.action ∈ CONTROLLER_ACTIONS
  all_goals simp only [hc, if_true, if_false, ite_true, ite_false]
  all_goals split_ifs with h1 h2 h3 h4
  · exact Or.inl ⟨h1.1, h1.2, rfl⟩
  · exact Or.inr (Or.inl ⟨h2.1, fun hv => h1 ⟨h2.1, hv⟩, h2.2, rfl⟩)
  · exact absurd ⟨h3.2.1, h3.2.2⟩ (hctl hc)
  · exact absurd (hvault h4.1) (by simp [h4.2])
  · exact Or.inr (Or.inr ⟨h1, h2, _, rfl, rfl, rfl, rfl, rfl⟩)
  · exact Or.inl ⟨h1.1, h1.2, rfl⟩
  · exact Or.inr (Or.inl ⟨h2.1, fun hv => h1 ⟨h2.1, hv⟩, h2.2, rfl⟩)
  · exact h3.1.elim
  · exact absurd (hvault h4.1) (by simp [h4.2])
  · exact Or.inr (Or.inr ⟨h1, h2, _, rfl, rfl, rfl, rfl, rfl⟩)

/-- Case analysis of one `validate_actions` iteration when the action
passes the inventory and vault checks: it raises
`ControllerNeededException` exactly under its condition, else
succeeds, preserving the configuration fields. -/
theorem checkAction_controller_spec (pe dk : String → Bool)
    (sa : StartupArgs) (rn : String) (a : ActionDecl)
    (hinv : a.action ∈ INVENTORY_ACTIONS →
      ¬sa.inventory = "" ∧ pe sa.inventory = true)
    (hvault : sa.check_vault = true → dk a.action_args = true) :
    (a.action ∈ CONTROLLER_ACTIONS ∧ sa.controller_url = ""
       ∧ sa.controller_token = "" ∧
       checkAction pe dk sa rn a
         = .error (.controllerNeeded rn a.action))
    ∨ (¬(a.action ∈ CONTROLLER_ACTIONS ∧ sa.controller_url = ""
         ∧ sa.controller_token = "")
       ∧ ∃ sa1, checkAction pe dk sa rn a = .ok sa1
           ∧ sa1.inventory = sa.inventory
           ∧ sa1.controller_url = sa.controller_url
           ∧ sa1.controller_token = sa.controller_token
           ∧ sa1.check_vault = sa.check_vault) := by
  unfold checkAction
  by_cases hc : a.action ∈ CONTROLLER_ACTIONS
  all_goals simp only [hc, if_true, if_false, ite_true, ite_false]
  all_goals split_ifs with h1 h2 h3 h4
  · exact absurd h1.2 (hinv h1.1).1
  · exact absurd h2.2 (by simp [(hinv h2.1).2])
  · exact Or.inl ⟨trivial, h3.2.1, h3.2.2, rfl⟩
  · exact absurd (hvault h4.1) (by simp [h4.2])
  · exact Or.inr ⟨fun hx => h3 hx, _, rfl, rfl, rfl, rfl, rfl⟩
  · exact absurd h1.2 (hinv h1.1).1
  · exact absurd h2.2 (by simp [(hinv h2.1).2])
  · exact h3.1.elim
  · exact absurd (hvault h4.1) (by simp [h4.2])
  · exact Or.inr ⟨fun hx => hx.1, _, rfl, rfl, rfl, rfl, rfl⟩

/-- Characterization of the two inventory classifications over a whole
scan in which no action trips the controller or vault checks. -/
theorem scanActions_inventory_spec (pe dk : String → Bool) :
    ∀ (items : List (String × ActionDecl)) (sa : StartupArgs),
      (∀ p ∈ items, p.2.action ∈ CONTROLLER_ACTIONS →
        ¬(sa.controller_url = "" ∧ sa.controller_token = "")) →
      (∀ p ∈ items, sa.check_vault = true → dk p.2.action_args = true) →
      (invNeededB (scanActions pe dk sa items) = true
          ↔ sa.inventory = ""
            ∧ ∃ p ∈ items, p.2.action ∈ INVENTORY_ACTIONS)
      ∧ (invNotFoundB (scanActions pe dk sa items) = true
          ↔ ¬sa.inventory = "" ∧ pe sa.inventory = false
            ∧ ∃ p ∈ items, p.2.action ∈ INVENTORY_ACTIONS) := by
  intro items
  induction items with
  | nil =>
    intro sa _ _
    constructor
    · simp [scanActions, invNeededB]
    · simp [scanActions, invNotFoundB]
  | cons hd rest ih =>
    intro sa hctl hvault
    obtain ⟨rn, a⟩ := hd
    rcases checkAction_inventory_spec pe dk sa rn a
        (hctl (rn, a) (by simp)) (hvault (rn, a) (by simp)) with
      ⟨hi, hinv, heq⟩ | ⟨hi, hinv, hpe, heq⟩ |
      ⟨hn1, hn2, sa1, heq, hf1, hf2, hf3, hf4⟩
    · constructor
      · simp only [scanActions, heq, invNeededB, true_iff]
        exact ⟨hinv, (rn, a), by simp, hi⟩
      · simp [scanActions, heq, invNotFoundB, hinv]
    · constructor
      · simp [scanActions, heq, invNeededB, hinv]
      · simp only [scanActions, heq, invNotFoundB, true_iff]
        exact ⟨hinv, hpe, (rn, a), by simp, hi⟩
    · have hctl1 : ∀ p ∈ rest, p.2.action ∈ CONTROLLER_ACTIONS →
          ¬(sa1.controller_url = "" ∧ sa1.controller_token = "") := by
        intro p hp hcp
        rw [hf2, hf3]
        exact hctl p (List.mem_cons_of_mem _ hp) hcp
      have hvault1 : ∀ p ∈ rest, sa1.check_vault = true →
          dk p.2.action_args = true := by
        intro p hp hcv
        rw [hf4] at hcv
        exact hvault p (List.mem_cons_of_mem _ hp) hcv
      obtain ⟨ihA, ihB⟩ := ih sa1 hctl1 hvault1
      have hscan : scanActions pe dk sa ((rn, a) :: rest)
          = scanActions pe dk sa1 rest := by
        simp [scanActions, heq]
      constructor
      · rw [hscan, ihA, hf1]
        constructor
        · rintro ⟨hinv0, p, hp, hip⟩
          exact ⟨hinv0, p, List.mem_cons_of_mem _ hp, hip⟩
        · rintro ⟨hinv0, p, hp, hip⟩
          rcases List.mem_cons.mp hp with rfl | hp1
          · exact absurd ⟨hip, hinv0⟩ hn1
          · exact ⟨hinv0, p, hp1, hip⟩
      · rw [hscan, ihB, hf1]
        constructor
        · rintro ⟨hni, hpe0, p, hp, hip⟩
          exact ⟨hni, hpe0, p, List.mem_cons_of_mem _ hp, hip⟩
        · rintro ⟨hni, hpe0, p, hp, hip⟩
          rcases List.mem_cons.mp hp with rfl | hp1
          · exact absurd ⟨hip, hpe0⟩ hn2
          · exact ⟨hni, hpe0, p, hp1, hip⟩

/-- Characterization of the controller classification over a whole scan
in which no action trips the inventory or vault checks. -/
theorem scanActions_controller_spec (pe dk : String → Bool) :
    ∀ (items : List (String × ActionDecl)) (sa : StartupArgs),
      (∀ p ∈ items, p.2.action ∈ INVENTORY_ACTIONS →
        ¬sa.inventory = "" ∧ pe sa.inventory = true) →
      (∀ p ∈ items, sa.check_vault = true → dk p.2.action_args = true) →
      (ctrlNeededB (scanActions pe dk sa items) = true
          ↔ sa.controller_url = "" ∧ sa.controller_token = ""
            ∧ ∃ p ∈ items, p.2.action ∈ CONTROLLER_ACTIONS) := by
  intro items
  induction items with
  | nil =>
    intro sa _ _
    simp [scanActions, ctrlNeededB]
  | cons hd rest ih =>
    intro sa hinv hvault
    obtain ⟨rn, a⟩ := hd
    rcases checkAction_controller_spec pe dk sa rn a
        (hinv (rn, a) (by simp)) (hvault (rn, a) (by simp)) with
      ⟨hc, hu, ht, heq⟩ | ⟨hn, sa1, heq, hf1, hf2, hf3, hf4⟩
    · simp only [scanActions, heq, ctrlNeededB, true_iff]
      exact ⟨hu, ht, (rn, a), by simp, hc⟩
    · have hinv1 : ∀ p ∈ rest, p.2.action ∈ INVENTORY_ACTIONS →
          ¬sa1.inventory = "" ∧ pe sa1.inventory = true := by
        intro p hp hip
        rw [hf1]
        exact hinv p (List.mem_cons_of_mem _ hp) hip
      have hvault1 : ∀ p ∈ rest, sa1.check_vault = true →
          dk p.2.action_args = true := by
        intro p hp hcv
        rw [hf4] at hcv
        exact hvault p (List.mem_cons_of_mem _ hp) hcv
      have hscan : scanActions pe dk sa ((rn, a) :: rest)
          = scanActions pe dk sa1 rest := by
        simp [scanActions, heq]
      rw [hscan, ih sa1 hinv1 hvault1, hf2, hf3]
      constructor
      · rintro ⟨hu, ht, p, hp, hcp⟩
        exact ⟨hu, ht, p, List.mem_cons_of_mem _ hp, hcp⟩
      · rintro ⟨hu, ht, p, hp, hcp⟩
        rcases List.mem_cons.mp hp with rfl | hp1
        · exact absurd ⟨hcp, hu, ht⟩ hn
        · exact ⟨hu, ht, p, hp1, hcp⟩

/-- A configuration whose first scanned action is a controller action
with no credentials, followed by an inventory action, with no
inventory configured. -/
def c7rule : Rule :=
  { name := "r",
    actions := [{ action := "run_job_template" }, { action := "run_playbook" }] }

def c7sa : StartupArgs :=
  { rulesets := [{ name := "rs", sources := [], rules := [c7rule] }] }

/-- Claim C7 counterexample: an inventory-requiring action is present
and no inventory is configured, yet validation raises
`ControllerNeededException` — not `InventoryNeededException` — because
the credential-less controller action is scanned first. -/
theorem c7_counterexample_controller_check_fires_first :
    ("run_playbook" ∈ INVENTORY_ACTIONS
      ∧ c7sa.inventory = ""
      ∧ ("r", ({ action := "run_playbook" } : ActionDecl))
          ∈ scanItems c7sa.rulesets)
    ∧ invNeededB (validate_actions (fun _ => false) (fun _ => true) c7sa)
        = false
    ∧ validate_actions (fun _ => false) (fun _ => true) c7sa
        = .error (.controllerNeeded "r" "run_job_template") := by
  refine ⟨⟨by decide, rfl, by decide⟩, by decide, rfl⟩

/-- Claim C7 (amended): provided no scanned action trips the
controller-credentials check or the vault-decryptability check (the
scan raises the first failing check only), action validation raises
`InventoryNeededException` exactly when an action of the fixed
inventory-requiring set is present and no inventory is configured, and
`InventoryNotFound` exactly when such an action is present, an
inventory is configured, and its path does not exist on disk. -/
theorem c7_amended_inventory_needed_and_not_found
    (pe dk : String → Bool) (sa : StartupArgs)
    (hctl : ∀ p ∈ scanItems sa.rulesets, p.2.action ∈ CONTROLLER_ACTIONS →
      ¬(sa.controller_url = "" ∧ sa.controller_token = ""))
    (hvault : ∀ p ∈ scanItems sa.rulesets, sa.check_vault = true →
      dk p.2.action_args = true) :
    (invNeededB (validate_actions pe dk sa) = true
        ↔ sa.inventory = ""
          ∧ ∃ p ∈ scanItems sa.rulesets, p.2.action ∈ INVENTORY_ACTIONS)
    ∧ (invNotFoundB (validate_actions pe dk sa) = true
        ↔ ¬sa.inventory = "" ∧ pe sa.inventory = false
          ∧ ∃ p ∈ scanItems sa.rulesets, p.2.action ∈ INVENTORY_ACTIONS) :=
  scanActions_inventory_spec pe dk (scanItems sa.rulesets) sa hctl hvault

/-- A configuration whose first scanned action is an inventory action
with no inventory configured, followed by a controller action, with
neither controller URL nor token configured. -/
def c8rule : Rule :=
  { name := "r",
    actions := [{ action := "run_playbook" }, { action := "run_job_template" }] }

def c8sa : StartupArgs :=
  { rulesets := [{ name := "rs", sources := [], rules := [c8rule] }] }

/-- Claim C8 counterexample: a controller-requiring action is present
and neither URL nor token is configured, yet validation raises
`InventoryNeededException` — not `ControllerNeededException` — because
the inventory-less playbook action is scanned first. -/
theorem c8_counterexample_inventory_check_fires_first :
    ("run_job_template" ∈ CONTROLLER_ACTIONS
      ∧ c8sa.controller_url = "" ∧ c8sa.controller_token = ""
      ∧ ("r", ({ action := "run_job_template" } : ActionDecl))
          ∈ scanItems c8sa.rulesets)
    ∧ ctrlNeededB (validate_actions (fun _ => false) (fun _ => true) c8sa)
        = false
    ∧ validate_actions (fun _ => false) (fun _ => true) c8sa
        = .error (.inventoryNeeded "r" "run_playbook") := by
  refine ⟨⟨by decide, rfl, rfl, by decide⟩, by decide, rfl⟩

/-- Claim C8 (amended): provided no scanned action trips the inventory
checks or the vault-decryptability check (the scan raises the first
failing check only), action validation raises
`ControllerNeededException` exactly when an action of the fixed
controller-requiring set is present and neither a controller URL nor a
controller token is configured — either one alone passes the check. -/
theorem c8_amended_controller_needed_iff
    (pe dk : String → Bool) (sa : StartupArgs)
    (hinv : ∀ p ∈ scanItems sa.rulesets, p.2.action ∈ INVENTORY_ACTIONS →
      ¬sa.inventory = "" ∧ pe sa.inventory = true)
    (hvault : ∀ p ∈ scanItems sa.rulesets, sa.check_vault = true →
      dk p.2.action_args = true) :
    ctrlNeededB (validate_actions pe dk sa) = true
      ↔ sa.controller_url = "" ∧ sa.controller_token = ""
        ∧ ∃ p ∈ scanItems sa.rulesets, p.2.action ∈ CONTROLLER_ACTIONS :=
  scanActions_controller_spec pe dk (scanItems sa.rulesets) sa hinv hvault

/-- A rulebook with one ruleset, one source, and one rule whose only
action is neither inventory- nor controller-requiring. -/
def c6Rulesets : List RuleSet :=
  [{ name := "rs", sources := ["s1"],
     rules := [{ name := "r1", actions := [{ action := "debug" }] }] }]

/-- Command line with a syntactically invalid controller URL configured
and no controller action anywhere. -/
def c6Args : ParsedArgs := { rulebook := "rules.yml", controller_url := "not a url" }

/-- A world whose URL validator rejects every URL and whose controller
probe would fail — neither is ever consulted in this run. -/
def c6World : World :=
  { path_exists := fun _ => true, workload := none, loaded_vars := [],
    loaded_rulesets := c6Rulesets, loaded_check_vault := false,
    decrypt_args := fun _ => true, decryptable_vars := fun _ => true,
    decrypted_context := fun v => v, substitute := fun e _ => e,
    validate_url := fun _ => false, probe_ok := false,
    controller_version := "x", max_feedback_timeout := 0,
    feedback_timed_out := false, driver_reload := false,
    source_result := fun _ => TaskResult.cancelled,
    feedback_result := TaskResult.cancelled }

/-- Claim C6 counterexample: a controller URL is configured and is
invalid per the URL validator, yet the run completes without the
invalid-url failure and without ever performing controller-parameter
validation, because no rule action enabled the controller-connection
check. -/
theorem c6_counterexample_configured_url_never_validated :
    c6Args.controller_url ≠ ""
    ∧ c6World.validate_url c6Args.controller_url = false
    ∧ c6World.probe_ok = false
    ∧ (runOnce c6Args c6World).2 = RunOutcome.completed
    ∧ Event.validateControllerEv ∉ (runOnce c6Args c6World).1 := by
  refine ⟨by decide, rfl, rfl, rfl, by decide⟩

/-- Claim C6 (amended): whenever action validation has enabled the
controller-connection check and a controller URL is configured,
startup validates the URL syntactically — raising the invalid-url
classification otherwise — then performs the reachability probe
(raising a connectivity failure when it fails) and records the
reported controller version. -/
theorem c6_amended_url_validated_when_check_enabled
    (args : ParsedArgs) (w : World) (sa sa1 : StartupArgs)
    (hacq : (acquireStartupArgs args w).2 = Except.ok sa)
    (hva : validate_actions w.path_exists w.decrypt_args sa = Except.ok sa1)
    (hdv : w.decryptable_vars sa1.vars = true)
    (hcc : sa1.check_controller_connection = true)
    (hurl : ¬sa1.controller_url = "") :
    (w.validate_url sa1.controller_url = false →
       (startupPhase args w).2 = Except.error StartupError.invalidUrl)
    ∧ (w.validate_url sa1.controller_url = true → w.probe_ok = false →
       (startupPhase args w).2 = Except.error StartupError.connectivity)
    ∧ (w.validate_url sa1.controller_url = true → w.probe_ok = true →
       Event.validateControllerEv ∈ (startupPhase args w).1
       ∧ Event.logVersionEv w.controller_version ∈ (startupPhase args w).1
       ∧ startupOk args w = true) := by
  refine ⟨?_, ?_, ?_⟩
  · intro hvu
    simp [startupPhase, hacq, hva, hdv, validateControllerParams, hcc, hvu,
      hurl]
  · intro hvu hpr
    simp [startupPhase, hacq, hva, hdv, validateControllerParams, hcc, hvu,
      hpr, hurl]
  · intro hvu hpr
    refine ⟨?_, ?_, ?_⟩
    · simp [startupPhase, hacq, hva, hdv, validateControllerParams, hcc, hvu,
        hpr, hurl]
    · simp [startupPhase, hacq, hva, hdv, validateControllerParams, hcc, hvu,
        hpr, hurl]
    · simp [startupOk, startupPhase, hacq, hva, hdv, validateControllerParams,
        hcc, hvu, hpr, hurl]

/-- A small rulebook for concrete evaluation. -/
def demoRuleSet : RuleSet :=
  { name := "rs1", sources := ["range"],
    rules := [{ name := "r1", actions := [{ action := "debug" }] }] }

/-- A websocket-enabled command line for concrete evaluation. -/
def demoArgs : ParsedArgs := { websocket_url := "ws://h", rulebook := "rules.yml" }

/-- An oracle assignment for concrete evaluation: startup validations
pass, the driver requests no reload, every task ends cancelled. -/
def demoWorld : World :=
  { path_exists := fun _ => true, workload := none, loaded_vars := [],
    loaded_rulesets := [demoRuleSet], loaded_check_vault := false,
    decrypt_args := fun _ => true, decryptable_vars := fun _ => true,
    decrypted_context := fun v => v, substitute := fun e _ => e,
    validate_url := fun _ => true, probe_ok := true,
    controller_version := "4.5", max_feedback_timeout := 5,
    feedback_timed_out := false, driver_reload := false,
    source_result := fun _ => TaskResult.cancelled,
    feedback_result := TaskResult.cancelled }

theorem c1_witness :
    (spawn_sources [demoRuleSet] [] ["d"] 2 5).2.map
        RuleSetQueue.ruleset = [demoRuleSet]
    ∧ (∀ rq ∈ (spawn_sources [demoRuleSet] [] ["d"] 2 5).2,
        rq.queue.capacity = 1)
    ∧ (spawn_sources [demoRuleSet] [] ["d"] 2 5).2.map
        (fun rq => rq.queue.qid) = List.range' 5 [demoRuleSet].length
    ∧ (spawn_sources [demoRuleSet] [] ["d"] 2 5).1 =
        (spawn_sources [demoRuleSet] [] ["d"] 2 5).2.flatMap
          (fun rq => rq.ruleset.sources.map (fun s =>
            { source := s, source_dirs := ["d"], vars := [],
              queue := rq.queue, shutdown_delay := 2 }))
    ∧ (spawn_sources [demoRuleSet] [] ["d"] 2 5).1.length =
        ([demoRuleSet].map (fun rs => rs.sources.length)).sum :=
  c1_spawn_sources_one_queue_per_group_one_task_per_source
    [] ["d"] 2 [demoRuleSet] 5

theorem c2_witness :
    ∃ fore,
      (runOnce demoArgs demoWorld).1 = fore
        ++ ((runTracked demoArgs demoWorld).zip
              (runGathered demoArgs demoWorld)).map
            (fun p => Event.awaitTask p.1 p.2)
        ++ [Event.closeSession]
        ++ (if runErrorFound demoArgs demoWorld = true then
              [Event.raiseError sourcesFailedMsg] else [])
      ∧ (∀ e ∈ fore, isCollectEv e = false)
      ∧ ((runTracked demoArgs demoWorld).zip
            (runGathered demoArgs demoWorld)).map Prod.fst
          = runTracked demoArgs demoWorld
      ∧ ((runOnce demoArgs demoWorld).2
            = RunOutcome.aggregateFailure sourcesFailedMsg
          ↔ runErrorFound demoArgs demoWorld = true)
      ∧ runErrorFound demoArgs demoWorld
          = (runGathered demoArgs demoWorld).any marksFailure
      ∧ (marksFailure TaskResult.cancelled = false
          ∧ ∀ m, marksFailure (TaskResult.failed m) = true) :=
  c2_all_results_collected_before_single_aggregate_raise
    demoArgs demoWorld (by rfl)

theorem c3_witness :
    ∃ fore,
      (runOnce demoArgs demoWorld).1 = fore ++ [Event.putEvent "Exit"]
        ++ (if hasFeedback demoArgs then
              [Event.waitFeedback demoWorld.max_feedback_timeout
                demoWorld.feedback_timed_out] else [])
        ++ (runTracked demoArgs demoWorld).map Event.cancelTask
        ++ ((runTracked demoArgs demoWorld).zip
              (runGathered demoArgs demoWorld)).map
            (fun p => Event.awaitTask p.1 p.2)
        ++ [Event.closeSession]
        ++ (if runErrorFound demoArgs demoWorld = true then
              [Event.raiseError sourcesFailedMsg] else [])
      ∧ (∀ e ∈ fore, isShutdownEv e = false)
      ∧ (runTracked demoArgs demoWorld).map Event.cancelTask
          = (trackedTasks demoArgs
              (postStartup demoArgs demoWorld)).map Event.cancelTask
      ∧ (∀ b, (runOnce demoArgs
            { demoWorld with feedback_timed_out := b }).2
          = (runOnce demoArgs demoWorld).2) :=
  c3_shutdown_put_exit_then_feedback_wait_then_cancel_all
    demoArgs demoWorld (by rfl)

theorem c4_witness :
    ∃ S T, (runOnce demoArgs demoWorld).1 = S ++ T
      ∧ S = (startupPhase demoArgs demoWorld).1
      ∧ (∀ e ∈ S, isSpawnEv e = false)
      ∧ (∀ e ∈ T, isValidationEv e = false)
      ∧ (isStartupFailureB (runOnce demoArgs demoWorld).2 = true → T = []) :=
  c4_validation_and_env_export_precede_all_spawns demoArgs demoWorld

theorem c5_witness :
    (runErrorFound demoArgs ((fun _ => demoWorld) 0) = true →
      runFuel (0 + 1) demoArgs (fun _ => demoWorld) 0
        = ((runOnce demoArgs ((fun _ => demoWorld) 0)).1,
           FinalOutcome.aggregateFailureF sourcesFailedMsg))
    ∧ (runErrorFound demoArgs ((fun _ => demoWorld) 0) = false →
        ((fun _ => demoWorld) 0).driver_reload = true →
      runFuel (0 + 1) demoArgs (fun _ => demoWorld) 0
        = ((runOnce demoArgs ((fun _ => demoWorld) 0)).1
             ++ (runFuel 0 demoArgs (fun _ => demoWorld) (0 + 1)).1,
           (runFuel 0 demoArgs (fun _ => demoWorld) (0 + 1)).2))
    ∧ (runErrorFound demoArgs ((fun _ => demoWorld) 0) = false →
        ((fun _ => demoWorld) 0).driver_reload = false →
      runFuel (0 + 1) demoArgs (fun _ => demoWorld) 0
        = ((runOnce demoArgs ((fun _ => demoWorld) 0)).1,
           FinalOutcome.completedF))
    ∧ ∃ fore, (runOnce demoArgs ((fun _ => demoWorld) 0)).1
        = fore ++ [Event.closeSession]
          ++ (if runErrorFound demoArgs ((fun _ => demoWorld) 0) = true then
                [Event.raiseError sourcesFailedMsg] else []) :=
  c5_failure_beats_reload_else_recursive_fresh_run
    demoArgs (fun _ => demoWorld) 0 0 (by rfl)

theorem c9_witness :
    (runOnce demoArgs { demoWorld with feedback_result := .failed "boom" }).2
        = RunOutcome.aggregateFailure "One of the source plugins failed"
    ∧ TaskKind.feedback
        ∈ runTracked demoArgs
            { demoWorld with feedback_result := .failed "boom" } :=
  c9_feedback_failure_reported_as_source_plugin_failure
    demoArgs { demoWorld with feedback_result := .failed "boom" }
    (by rfl) (by rfl) (by rfl) (fun i => rfl)

theorem c10_witness :
    ((fileMonitor demoArgs demoWorld).isSome
        = (!workerMode demoArgs && demoArgs.hot_reload
            && demoWorld.path_exists demoArgs.rulebook))
    ∧ (∀ m, Event.runDriver m ∈ (runOnce demoArgs demoWorld).1 →
        m = fileMonitor demoArgs demoWorld)
    ∧ (startupOk demoArgs demoWorld = true →
        Event.runDriver (fileMonitor demoArgs demoWorld)
          ∈ (runOnce demoArgs demoWorld).1) :=
  c10_monitor_iff_nonworker_hotreload_and_existing_rulebook
    demoArgs demoWorld

/-- Configuration for instantiating the amended claim C6: one
controller action, URL and token configured, validator and probe
succeed. -/
def c6wRulesets : List RuleSet :=
  [{ name := "rs", sources := ["s1"],
     rules := [{ name := "r1", actions := [{ action := "run_job_template" }] }] }]

def c6wArgs : ParsedArgs :=
  { rulebook := "rules.yml", controller_url := "https://ctl",
    controller_token := "tok" }

def c6wWorld : World :=
  { path_exists := fun _ => true, workload := none, loaded_vars := [],
    loaded_rulesets := c6wRulesets, loaded_check_vault := false,
    decrypt_args := fun _ => true, decryptable_vars := fun _ => true,
    decrypted_context := fun v => v, substitute := fun e _ => e,
    validate_url := fun _ => true, probe_ok := true,
    controller_version := "4.5", max_feedback_timeout := 5,
    feedback_timed_out := false, driver_reload := false,
    source_result := fun _ => TaskResult.cancelled,
    feedback_result := TaskResult.cancelled }

def c6wSa : StartupArgs :=
  { rulesets := c6wRulesets, controller_url := "https://ctl",
    controller_token := "tok" }

def c6wSa1 : StartupArgs := { c6wSa with check_controller_connection := true }

theorem c6_amended_witness :
    (c6wWorld.validate_url c6wSa1.controller_url = false →
       (startupPhase c6wArgs c6wWorld).2 = Except.error StartupError.invalidUrl)
    ∧ (c6wWorld.validate_url c6wSa1.controller_url = true →
        c6wWorld.probe_ok = false →
       (startupPhase c6wArgs c6wWorld).2
         = Except.error StartupError.connectivity)
    ∧ (c6wWorld.validate_url c6wSa1.controller_url = true →
        c6wWorld.probe_ok = true →
       Event.validateControllerEv ∈ (startupPhase c6wArgs c6wWorld).1
       ∧ Event.logVersionEv c6wWorld.controller_version
           ∈ (startupPhase c6wArgs c6wWorld).1
       ∧ startupOk c6wArgs c6wWorld = true) :=
  c6_amended_url_validated_when_check_enabled c6wArgs c6wWorld c6wSa c6wSa1
    rfl rfl rfl rfl (by decide)

/-- Configuration for instantiating the amended claim C7: one
inventory-requiring action, no inventory configured, no controller
action, no vault. -/
def c7wRule : Rule :=
  { name := "r", actions := [{ action := "run_playbook" }] }

def c7wSa : StartupArgs :=
  { rulesets := [{ name := "rs", sources := [], rules := [c7wRule] }] }

theorem c7_amended_witness :
    (invNeededB (validate_actions (fun _ => false) (fun _ => true) c7wSa)
        = true
      ↔ c7wSa.inventory = ""
        ∧ ∃ p ∈ scanItems c7wSa.rulesets, p.2.action ∈ INVENTORY_ACTIONS)
    ∧ (invNotFoundB (validate_actions (fun _ => false) (fun _ => true) c7wSa)
        = true
      ↔ ¬c7wSa.inventory = "" ∧ (fun _ => false) c7wSa.inventory = false
        ∧ ∃ p ∈ scanItems c7wSa.rulesets, p.2.action ∈ INVENTORY_ACTIONS) :=
  c7_amended_inventory_needed_and_not_found (fun _ => false) (fun _ => true)
    c7wSa (by decide) (by decide)

/-- Configuration for instantiating the amended claim C8: one
controller-requiring action, neither URL nor token configured, no
inventory action, no vault. -/
def c8wRule : Rule :=
  { name := "r", actions := [{ action := "run_job_template" }] }

def c8wSa : StartupArgs :=
  { rulesets := [{ name := "rs", sources := [], rules := [c8wRule] }] }

theorem c8_amended_witness :
    ctrlNeededB (validate_actions (fun _ => true) (fun _ => true) c8wSa)
        = true
      ↔ c8wSa.controller_url = "" ∧ c8wSa.controller_token = ""
        ∧ ∃ p ∈ scanItems c8wSa.rulesets, p.2.action ∈ CONTROLLER_ACTIONS :=
  c8_amended_controller_needed_iff (fun _ => true) (fun _ => true) c8wSa
    (by decide) (by decide)

end AnsibleRulebook
